import Mathlib

/-!
Shallow embedding of `use-http-service` (src/src/index.ts): a React hook that
wraps a fetch request to a JSON based HTTP service.  The embedding models the
JSON values flowing through the hook, the request-state container and its
merge-style setter, the header/body construction for the outgoing request, and
the response-handling pipeline of `callService` (init / handleResponse /
handleError / cleanup with its try-catch-finally structure).  The network call
itself is modelled by its outcome: either a response (status plus the result
of attempting to decode the body as JSON) or a transport-level rejection.
-/

namespace UseHttpService

/-- JSON values, the payloads a JSON HTTP service exchanges.  TypeScript's
generic parameters `T`, `U`, `V` are erased at runtime; every body is a JSON
value. -/
inductive Json where
  | null : Json
  | bool (b : Bool) : Json
  | num (n : Int) : Json
  | str (s : String) : Json
  | arr (elems : List Json) : Json
  | obj (fields : List (String × Json)) : Json

/-- JavaScript string escaping as performed by `JSON.stringify` on the
characters that matter for JSON well-formedness. -/
def escapeChar (c : Char) : String :=
  if c = '\"' then "\\\""
  else if c = '\\' then "\\\\"
  else if c = '\n' then "\\n"
  else if c = '\t' then "\\t"
  else if c = '\r' then "\\r"
  else String.singleton c

/-- Quote a string as a JSON string literal. -/
def jsonQuote (s : String) : String :=
  "\"" ++ String.join (s.toList.map escapeChar) ++ "\""

mutual

/-- Model of `JSON.stringify` on JSON values. -/
def stringify : Json → String
  | .null => "null"
  | .bool true => "true"
  | .bool false => "false"
  | .num n => toString n
  | .str s => jsonQuote s
  | .arr elems => "[" ++ stringifyArr elems ++ "]"
  | .obj fields => "\x7b" ++ stringifyObj fields ++ "\x7d"

/-- Comma-separated serialization of array elements. -/
def stringifyArr : List Json → String
  | [] => ""
  | [x] => stringify x
  | x :: xs => stringify x ++ "," ++ stringifyArr xs

/-- Comma-separated serialization of object entries. -/
def stringifyObj : List (String × Json) → String
  | [] => ""
  | [(k, v)] => jsonQuote k ++ ":" ++ stringify v
  | (k, v) :: xs => jsonQuote k ++ ":" ++ stringify v ++ "," ++ stringifyObj xs

end

/-- JavaScript truthiness (`!!v`) restricted to JSON values: `null`, `false`,
`0` and the empty string are falsy; objects and arrays are always truthy. -/
def truthy : Json → Bool
  | .null => false
  | .bool b => b
  | .num n => n != 0
  | .str s => s != ""
  | .arr _ => true
  | .obj _ => true

/-- The `buildBody` helper (src/src/index.ts lines 100-102):
`return !!body ? JSON.stringify(body) : undefined;`.
`none` models a `requestBody` argument that was omitted (`undefined`). -/
def buildBody (body : Option Json) : Option String :=
  match body with
  | some b => if truthy b then some (stringify b) else none
  | none => none

/-- Fetch-API header lists: entries are (lowercased name, value) pairs, since
the `Headers` class normalizes header names case-insensitively. -/
abbrev HeaderList := List (String × String)

/-- Lowercasing of a header name, the normalization the Fetch API's `Headers`
class applies to make names case-insensitive. -/
def lowerName (s : String) : String := String.mk (s.data.map Char.toLower)

/-- Model of `Headers.append`: adds an entry at the end, normalizing the name. -/
def headersAppend (h : HeaderList) (name value : String) : HeaderList :=
  h ++ [(lowerName name, value)]

/-- Core of `Headers.set` on a list whose names are already normalized and
with the new name already normalized: replace the first entry of that name
(dropping any further ones), or append if the name is absent. -/
def headersSetAux : HeaderList → String → String → HeaderList
  | [], name, value => [(name, value)]
  | (m, w) :: t, name, value =>
      if m == name then (name, value) :: t.filter (fun p => p.1 != name)
      else (m, w) :: headersSetAux t name value

/-- Model of `Headers.set`: case-insensitively overwrite the value for a name. -/
def headersSet (h : HeaderList) (name value : String) : HeaderList :=
  headersSetAux h (lowerName name) value

/-- Model of `Headers.get`: the value recorded for a (case-insensitive) name. -/
def headersGet (h : HeaderList) (name : String) : Option String :=
  (h.find? (fun p => p.1 == lowerName name)).map Prod.snd

/-- The `buildHeaders` helper (src/src/index.ts lines 89-98): append every caller
supplied header, then force `Content-Type` and `Accept` to
`application/json` via `Headers.set`. -/
def buildHeaders (headers : Option HeaderList) : HeaderList :=
  let out : HeaderList :=
    match headers with
    | some hs => hs.foldl (fun acc p => headersAppend acc p.1 p.2) []
    | none => []
  let out := headersSet out "Content-Type" "application/json"
  headersSet out "Accept" "application/json"

/-- HTTP methods accepted by the `Service` descriptor. -/
inductive Method where
  | DELETE | GET | HEAD | OPTIONS | POST | PUT
deriving DecidableEq, Repr

/-- Request credentials modes. -/
inductive Credentials where
  | include | omit | sameOrigin
deriving DecidableEq, Repr

/-- Request CORS modes. -/
inductive Mode where
  | cors | navigate | noCors | sameOrigin
deriving DecidableEq, Repr

/-- Request redirection modes. -/
inductive Redirect where
  | error | follow | manual
deriving DecidableEq, Repr

/-- The `Service` descriptor type (src/src/index.ts lines 128-156): static
configuration for the endpoint; optional fields model the `?:` properties. -/
structure Service where
  url : String
  method : Option Method := none
  credentials : Option Credentials := none
  headers : Option HeaderList := none
  keepalive : Option Bool := none
  mode : Option Mode := none
  redirect : Option Redirect := none

/-- The `RequestInit` argument handed to `fetch` by `callService`: descriptor
options plus the computed headers and body. -/
structure FetchInit where
  method : Option Method
  credentials : Option Credentials
  keepalive : Option Bool
  mode : Option Mode
  redirect : Option Redirect
  headers : HeaderList
  body : Option String

/-- The outgoing request `callService` issues (src/src/index.ts lines 21-27):
`fetch(url, { ...serviceInfo, headers: buildHeaders(...), body: buildBody(...) })`. -/
def outgoingRequest (service : Service) (requestBody : Option Json) : FetchInit :=
  { method := service.method
    credentials := service.credentials
    keepalive := service.keepalive
    mode := service.mode
    redirect := service.redirect
    headers := buildHeaders service.headers
    body := buildBody requestBody }

/-- The request state record (src/src/index.ts lines 158-176): `data` and
`error` are `Option`s because the corresponding `useState` cells start out
`undefined`. -/
structure RequestState where
  isPending : Bool
  isSuccess : Bool
  data : Option Json
  error : Option Json

/-- A partial request state (src/src/index.ts lines 178-183): every field may
be absent (`undefined`), modelled by `none`. -/
structure PartialRequestState where
  isPending : Option Bool := none
  isSuccess : Option Bool := none
  data : Option Json := none
  error : Option Json := none

/-- The merge-style setter returned by `useRequestState` (src/src/index.ts
lines 114-119): each field of the state is overwritten exactly when the
partial update carries a non-`undefined` value for it. -/
def setRequestState (s : RequestState) (newState : PartialRequestState) : RequestState :=
  { isPending := match newState.isPending with | some b => b | none => s.isPending
    isSuccess := match newState.isSuccess with | some b => b | none => s.isSuccess
    data := match newState.data with | some d => some d | none => s.data
    error := match newState.error with | some e => some e | none => s.error }

/-- The `useRequestState` helper (src/src/index.ts lines 105-125): the initial request
state (all four `useState` initial values) together with the merge setter. -/
def useRequestState : RequestState × (RequestState → PartialRequestState → RequestState) :=
  ({ isPending := false, isSuccess := false, data := none, error := none },
   setRequestState)

/-- A fetch `Response` as `callService` observes it: the HTTP status code and
the outcome of `res.json()` — either the decoded JSON value or the message of
the `FetchError` thrown when the body is not valid JSON. -/
structure Response where
  status : Nat
  json : Except String Json

/-- Model of `Response.ok` of the Fetch API: status in the success range 200-299. -/
def Response.ok (res : Response) : Bool :=
  decide (200 ≤ res.status ∧ res.status ≤ 299)

/-- The errors that can travel through `callService`: the internal
`ServiceRequestError` carrying the raw response (src/src/index.ts lines
127-133), the `FetchError` raised when a body fails to decode as JSON, and a
transport-level network error rejecting the `fetch` call itself. -/
inductive JsError where
  | serviceRequestError (res : Response)
  | fetchError (message : String)
  | networkError (message : String)

/-- Results returned by `callService` (src/src/index.ts lines 185-195):
`success d` is `{isOk: true, data: d}` and `failure e` is
`{isOk: false, error: e}`. -/
inductive Result where
  | success (data : Json)
  | failure (error : Json)

/-- The `isOk` discriminant of a `Result`. -/
def Result.isOk : Result → Bool
  | .success _ => true
  | .failure _ => false

/-- The `init` helper (src/src/index.ts lines 51-53): `setRequestState({ isPending: true })`. -/
def init (s : RequestState) : RequestState :=
  setRequestState s { isPending := some true }

/-- The `cleanup` helper (src/src/index.ts lines 85-87): `setRequestState({ isPending: false })`. -/
def cleanup (s : RequestState) : RequestState :=
  setRequestState s { isPending := some false }

/-- The `handleResponse` helper (src/src/index.ts lines 55-67): throw
`ServiceRequestError(res)` on a non-success status; otherwise decode the body
(`await res.json()`, which may throw a `FetchError`), record the success in
the request state, and return the data.  Every throwing path leaves the state
untouched — the throws happen before `setRequestState`. -/
def handleResponse (res : Response) (s : RequestState) :
    Except JsError (Json × RequestState) :=
  if !res.ok then .error (.serviceRequestError res)
  else
    match res.json with
    | .error m => .error (.fetchError m)
    | .ok data =>
        .ok (data, setRequestState s
          { isPending := some false, isSuccess := some true, data := some data })

/-- The `handleError` helper (src/src/index.ts lines 69-83): a `ServiceRequestError` is
converted into the error payload by decoding the failed response's body
(which may itself throw a `FetchError`); any other error is rethrown. -/
def handleError (err : JsError) (s : RequestState) :
    Except JsError (Json × RequestState) :=
  match err with
  | .serviceRequestError res =>
      match res.json with
      | .error m => .error (.fetchError m)
      | .ok data =>
          .ok (data, setRequestState s
            { isPending := some false, isSuccess := some false, error := some data })
  | e => .error e

/-- The core of `callService` (src/src/index.ts lines 17-47) after the
network call: `init()` marks the state pending, then `fetch` is awaited
*outside* the try block — a transport rejection therefore propagates before
the try/catch/finally is ever entered and `cleanup` does not run.  Once a
response arrives, the try block builds a success result from
`handleResponse`, the catch block turns a thrown error into a failure result
via `handleError` (rethrows escape the catch), and the finally block always
runs `cleanup`.  Returns the value `callService` resolves with (or the error
it rejects with) together with the final request state. -/
def callService (fetchOutcome : Except JsError Response) (s0 : RequestState) :
    Except JsError Result × RequestState :=
  let s1 := init s0
  match fetchOutcome with
  | .error e => (.error e, s1)
  | .ok res =>
      match handleResponse res s1 with
      | .ok (data, s2) => (.ok (.success data), cleanup s2)
      | .error thrown =>
          match handleError thrown s1 with
          | .ok (data, s2) => (.ok (.failure data), cleanup s2)
          | .error rethrown => (.error rethrown, cleanup s1)

/-- Claim C1: on a response whose status is in the success range and whose
body decodes to the JSON value `d`, `execute` resolves to `{isOk: true,
data: d}` and the final request state has `isPending = false`,
`isSuccess = true` and `data = d`. -/
theorem callService_success_status_resolves_data
    (s0 : RequestState) (res : Response) (d : Json)
    (hlo : 200 ≤ res.status) (hhi : res.status ≤ 299)
    (hjson : res.json = .ok d) :
    (callService (.ok res) s0).1 = .ok (.success d) ∧
    (callService (.ok res) s0).2.isPending = false ∧
    (callService (.ok res) s0).2.isSuccess = true ∧
    (callService (.ok res) s0).2.data = some d := by
  have hok : res.ok = true := by simp [Response.ok, hlo, hhi]
  simp [callService, init, cleanup, handleResponse, hok, hjson, setRequestState]

/-- Witness for C1: the test scenario of a 200 response with body
`{msg: "success!"}`, run from the hook's initial state. -/
theorem callService_success_status_resolves_data_witness :
    (200 : Nat) ≤ 200 ∧ (200 : Nat) ≤ 299 ∧
    (Response.mk 200 (.ok (Json.obj [("msg", Json.str "success!")]))).json
      = .ok (Json.obj [("msg", Json.str "success!")]) ∧
    ((callService (.ok (Response.mk 200 (.ok (Json.obj [("msg", Json.str "success!")]))))
        useRequestState.1).1
      = .ok (.success (Json.obj [("msg", Json.str "success!")])) ∧
     (callService (.ok (Response.mk 200 (.ok (Json.obj [("msg", Json.str "success!")]))))
        useRequestState.1).2.isPending = false ∧
     (callService (.ok (Response.mk 200 (.ok (Json.obj [("msg", Json.str "success!")]))))
        useRequestState.1).2.isSuccess = true ∧
     (callService (.ok (Response.mk 200 (.ok (Json.obj [("msg", Json.str "success!")]))))
        useRequestState.1).2.data = some (Json.obj [("msg", Json.str "success!")])) :=
  ⟨Nat.le_refl 200, by decide, rfl,
   callService_success_status_resolves_data useRequestState.1 _ _
     (Nat.le_refl 200) (by decide) rfl⟩

/-- Claim C2: on a response whose status is outside the success range and
whose body decodes to the JSON value `e`, `execute` resolves normally to
`{isOk: false, error: e}` and the final request state has
`isSuccess = false`, `isPending = false` and `error = e`. -/
theorem callService_failure_status_resolves_error
    (s0 : RequestState) (res : Response) (e : Json)
    (hst : ¬ (200 ≤ res.status ∧ res.status ≤ 299))
    (hjson : res.json = .ok e) :
    (callService (.ok res) s0).1 = .ok (.failure e) ∧
    (callService (.ok res) s0).2.isSuccess = false ∧
    (callService (.ok res) s0).2.isPending = false ∧
    (callService (.ok res) s0).2.error = some e := by
  have hok : res.ok = false := by simp [Response.ok, hst]
  simp [callService, init, cleanup, handleResponse, handleError, hok, hjson,
    setRequestState]

/-- Witness for C2: the test scenario of a 401 response with body
`{errorMsg: "error!"}`, run from the hook's initial state. -/
theorem callService_failure_status_resolves_error_witness :
    ¬ ((200 : Nat) ≤ 401 ∧ (401 : Nat) ≤ 299) ∧
    ((callService (.ok (Response.mk 401 (.ok (Json.obj [("errorMsg", Json.str "error!")]))))
        useRequestState.1).1
      = .ok (.failure (Json.obj [("errorMsg", Json.str "error!")])) ∧
     (callService (.ok (Response.mk 401 (.ok (Json.obj [("errorMsg", Json.str "error!")]))))
        useRequestState.1).2.isSuccess = false ∧
     (callService (.ok (Response.mk 401 (.ok (Json.obj [("errorMsg", Json.str "error!")]))))
        useRequestState.1).2.isPending = false ∧
     (callService (.ok (Response.mk 401 (.ok (Json.obj [("errorMsg", Json.str "error!")]))))
        useRequestState.1).2.error = some (Json.obj [("errorMsg", Json.str "error!")])) :=
  ⟨by decide,
   callService_failure_status_resolves_error useRequestState.1 _ _ (by decide) rfl⟩

/-- Claim C3: on a response (of either status class) whose body fails to
decode as JSON, `execute` raises the decoding error instead of resolving
with a result, and the final state keeps the prior `isSuccess`, `data` and
`error` with only `isPending` cleared to `false`. -/
theorem callService_undecodable_body_raises
    (s0 : RequestState) (res : Response) (m : String)
    (hjson : res.json = .error m) :
    callService (.ok res) s0
      = (.error (.fetchError m),
         ⟨false, s0.isSuccess, s0.data, s0.error⟩) := by
  cases hok : res.ok <;>
    simp [callService, init, cleanup, handleResponse, handleError, hok, hjson,
      setRequestState]

/-- Witness for C3: the test scenario of the `not-a-json-endpoint` (a 200
response whose body is not JSON), started from a state holding previous
data and error values which must survive. -/
theorem callService_undecodable_body_raises_witness :
    (Response.mk 200 (.error "invalid json response body")).json
      = .error "invalid json response body" ∧
    callService (.ok (Response.mk 200 (.error "invalid json response body")))
        ⟨true, true, some (Json.str "old"), some (Json.str "oldErr")⟩
      = (.error (.fetchError "invalid json response body"),
         ⟨false, true, some (Json.str "old"), some (Json.str "oldErr")⟩) :=
  ⟨rfl,
   callService_undecodable_body_raises
     ⟨true, true, some (Json.str "old"), some (Json.str "oldErr")⟩ _ _ rfl⟩

/-- Claim C7: immediately after hook creation, before any `execute`, the
request state is `isPending = false`, `isSuccess = false` with `data` and
`error` both undefined. -/
theorem useRequestState_initial_state :
    useRequestState.1.isPending = false ∧
    useRequestState.1.isSuccess = false ∧
    useRequestState.1.data = none ∧
    useRequestState.1.error = none :=
  ⟨rfl, rfl, rfl, rfl⟩

/-- Claim C9: when the transport itself rejects (no HTTP status available),
the network error propagates uncaught out of `execute` and the state's
`error` field is not modified by the invocation. -/
theorem callService_network_error_propagates
    (s0 : RequestState) (m : String) :
    (callService (.error (.networkError m)) s0).1 = .error (.networkError m) ∧
    (callService (.error (.networkError m)) s0).2.error = s0.error :=
  ⟨rfl, rfl⟩

/-- Claim C10: when the transport rejects, the `finally`-based cleanup does
not run — the invocation raises with the state still `isPending = true`
(and all other fields untouched), because `fetch` is awaited outside the
try/catch/finally block. -/
theorem callService_network_error_skips_cleanup
    (s0 : RequestState) (m : String) :
    (callService (.error (.networkError m)) s0).1 = .error (.networkError m) ∧
    (callService (.error (.networkError m)) s0).2
      = ⟨true, s0.isSuccess, s0.data, s0.error⟩ :=
  ⟨rfl, rfl⟩

/-- Claim C5 counterexample: the source guards the body with JavaScript
truthiness (`!!body ? JSON.stringify(body) : undefined`), so a provided but
falsy request body — here the JSON number `0` — is silently omitted instead
of being serialized, refuting the claim for that input. -/
theorem outgoingRequest_falsy_body_cex :
    ¬ ((outgoingRequest { url := "https://someapi.com/resource" }
          (some (Json.num 0))).body
        = some (stringify (Json.num 0))) := by
  simp [outgoingRequest, buildBody, truthy]

/-- Claim C5 (amended): when the provided request body is truthy, the
outgoing request carries its JSON serialization; when the body is omitted or
falsy, the outgoing request carries no body. -/
theorem outgoingRequest_body_amended (service : Service) (b : Json) :
    (truthy b = true →
      (outgoingRequest service (some b)).body = some (stringify b)) ∧
    (truthy b = false → (outgoingRequest service (some b)).body = none) ∧
    (outgoingRequest service none).body = none :=
  ⟨fun h => by simp [outgoingRequest, buildBody, h],
   fun h => by simp [outgoingRequest, buildBody, h],
   rfl⟩

/-- Witness for the amended C5: the POST example's body
`{title: "foo"}` is truthy and is serialized into the outgoing request. -/
theorem outgoingRequest_body_amended_witness :
    truthy (Json.obj [("title", Json.str "foo")]) = true ∧
    (outgoingRequest
        { url := "https://jsonplaceholder.typicode.com/posts", method := some .POST }
        (some (Json.obj [("title", Json.str "foo")]))).body
      = some (stringify (Json.obj [("title", Json.str "foo")])) :=
  ⟨rfl, (outgoingRequest_body_amended _ _).1 rfl⟩

/-- Claim C6: the merge setter overwrites exactly the fields whose value in
the partial update is non-`undefined`; every field that is `undefined` in
the partial update keeps its prior value. -/
theorem setRequestState_merges_defined_fields
    (s : RequestState) (p : PartialRequestState) :
    (∀ b, p.isPending = some b → (setRequestState s p).isPending = b) ∧
    (p.isPending = none → (setRequestState s p).isPending = s.isPending) ∧
    (∀ b, p.isSuccess = some b → (setRequestState s p).isSuccess = b) ∧
    (p.isSuccess = none → (setRequestState s p).isSuccess = s.isSuccess) ∧
    (∀ d, p.data = some d → (setRequestState s p).data = some d) ∧
    (p.data = none → (setRequestState s p).data = s.data) ∧
    (∀ e, p.error = some e → (setRequestState s p).error = some e) ∧
    (p.error = none → (setRequestState s p).error = s.error) :=
  ⟨fun _ h => by simp [setRequestState, h],
   fun h => by simp [setRequestState, h],
   fun _ h => by simp [setRequestState, h],
   fun h => by simp [setRequestState, h],
   fun _ h => by simp [setRequestState, h],
   fun h => by simp [setRequestState, h],
   fun _ h => by simp [setRequestState, h],
   fun h => by simp [setRequestState, h]⟩

/-- Witness for C6: a mixed partial update (`isPending` and `data` defined,
`isSuccess` and `error` undefined) overwrites exactly the defined fields. -/
theorem setRequestState_merges_defined_fields_witness :
    (setRequestState ⟨false, true, some (Json.str "a"), some (Json.str "b")⟩
        ⟨some true, none, some (Json.str "c"), none⟩).isPending = true ∧
    (setRequestState ⟨false, true, some (Json.str "a"), some (Json.str "b")⟩
        ⟨some true, none, some (Json.str "c"), none⟩).isSuccess = true ∧
    (setRequestState ⟨false, true, some (Json.str "a"), some (Json.str "b")⟩
        ⟨some true, none, some (Json.str "c"), none⟩).data = some (Json.str "c") ∧
    (setRequestState ⟨false, true, some (Json.str "a"), some (Json.str "b")⟩
        ⟨some true, none, some (Json.str "c"), none⟩).error = some (Json.str "b") :=
  ⟨(setRequestState_merges_defined_fields _ _).1 true rfl,
   (setRequestState_merges_defined_fields _ _).2.2.2.1 rfl,
   (setRequestState_merges_defined_fields _ _).2.2.2.2.1 (Json.str "c") rfl,
   (setRequestState_merges_defined_fields _ _).2.2.2.2.2.2.2 rfl⟩

/-- Claim C8 counterexample: the final state of an invocation is *not*
determined solely by its own response — after a first call that succeeded
with data `"d1"`, a second call answered 401 with error body `"e2"` ends in
a state still carrying `data = "d1"`, while the very same response handled
from the fresh initial state ends with `data` undefined. -/
theorem callService_own_response_cex :
    ¬ ((callService (.ok (Response.mk 401 (.ok (Json.str "e2"))))
          (callService (.ok (Response.mk 200 (.ok (Json.str "d1"))))
            useRequestState.1).2).2
        = (callService (.ok (Response.mk 401 (.ok (Json.str "e2"))))
            useRequestState.1).2) := by
  intro h
  have hd : (some (Json.str "d1") : Option Json) = none :=
    congrArg RequestState.data h
  exact Option.noConfusion hd

/-- Claim C8 (amended): every invocation starts by setting `isPending = true`
while leaving `isSuccess`, `data` and `error` unchanged — in particular the
pending transition of a second sequential invocation happens whatever state
(including `isSuccess = true`) the first one left; and each invocation's
result together with the fields its own branch assigns (`isPending`,
`isSuccess`, and `data` on success / `error` on classified failure) is
determined solely by its own response, while the complementary field carries
over from before the invocation. -/
theorem execute_pending_and_own_response_amended :
    (∀ s : RequestState, init s = ⟨true, s.isSuccess, s.data, s.error⟩) ∧
    (∀ (s0 : RequestState) (o : Except JsError Response),
        (init (callService o s0).2).isPending = true ∧
        (init (callService o s0).2).isSuccess = (callService o s0).2.isSuccess ∧
        (init (callService o s0).2).data = (callService o s0).2.data ∧
        (init (callService o s0).2).error = (callService o s0).2.error) ∧
    (∀ (s s' : RequestState) (res : Response) (d : Json),
        res.ok = true → res.json = .ok d →
        (callService (.ok res) s).1 = (callService (.ok res) s').1 ∧
        (callService (.ok res) s).2.isPending
          = (callService (.ok res) s').2.isPending ∧
        (callService (.ok res) s).2.isSuccess
          = (callService (.ok res) s').2.isSuccess ∧
        (callService (.ok res) s).2.data = (callService (.ok res) s').2.data) ∧
    (∀ (s s' : RequestState) (res : Response) (e : Json),
        res.ok = false → res.json = .ok e →
        (callService (.ok res) s).1 = (callService (.ok res) s').1 ∧
        (callService (.ok res) s).2.isPending
          = (callService (.ok res) s').2.isPending ∧
        (callService (.ok res) s).2.isSuccess
          = (callService (.ok res) s').2.isSuccess ∧
        (callService (.ok res) s).2.error = (callService (.ok res) s').2.error) ∧
    (∀ (s : RequestState) (res : Response) (d : Json),
        res.ok = true → res.json = .ok d →
        (callService (.ok res) s).2.error = s.error) ∧
    (∀ (s : RequestState) (res : Response) (e : Json),
        res.ok = false → res.json = .ok e →
        (callService (.ok res) s).2.data = s.data) :=
  ⟨fun _ => rfl,
   fun _ _ => ⟨rfl, rfl, rfl, rfl⟩,
   fun s s' res d hok hjson => by
     simp [callService, init, cleanup, handleResponse, handleError, hok, hjson,
       setRequestState],
   fun s s' res e hok hjson => by
     simp [callService, init, cleanup, handleResponse, handleError, hok, hjson,
       setRequestState],
   fun s res d hok hjson => by
     simp [callService, init, cleanup, handleResponse, handleError, hok, hjson,
       setRequestState],
   fun s res e hok hjson => by
     simp [callService, init, cleanup, handleResponse, handleError, hok, hjson,
       setRequestState]⟩

/-- Witness for the amended C8: a 200 response with body `"ok"` handled both
from the fresh initial state and from a state left by a previous successful
call gives the same result, `isPending`, `isSuccess` and `data`; moreover the
complementary field is retained — a prior `error` survives a successful call
and a prior `data` survives a classified failure. -/
theorem execute_pending_and_own_response_amended_witness :
    (Response.mk 200 (.ok (Json.str "ok"))).ok = true ∧
    ((callService (.ok (Response.mk 200 (.ok (Json.str "ok"))))
        useRequestState.1).1
      = (callService (.ok (Response.mk 200 (.ok (Json.str "ok"))))
          ⟨false, true, some (Json.str "d1"), none⟩).1 ∧
     (callService (.ok (Response.mk 200 (.ok (Json.str "ok"))))
        useRequestState.1).2.isPending
      = (callService (.ok (Response.mk 200 (.ok (Json.str "ok"))))
          ⟨false, true, some (Json.str "d1"), none⟩).2.isPending ∧
     (callService (.ok (Response.mk 200 (.ok (Json.str "ok"))))
        useRequestState.1).2.isSuccess
      = (callService (.ok (Response.mk 200 (.ok (Json.str "ok"))))
          ⟨false, true, some (Json.str "d1"), none⟩).2.isSuccess ∧
     (callService (.ok (Response.mk 200 (.ok (Json.str "ok"))))
        useRequestState.1).2.data
      = (callService (.ok (Response.mk 200 (.ok (Json.str "ok"))))
          ⟨false, true, some (Json.str "d1"), none⟩).2.data) ∧
    (callService (.ok (Response.mk 200 (.ok (Json.str "ok"))))
        ⟨false, false, none, some (Json.str "oldErr")⟩).2.error
      = some (Json.str "oldErr") ∧
    (callService (.ok (Response.mk 401 (.ok (Json.str "e2"))))
        ⟨false, true, some (Json.str "d1"), none⟩).2.data
      = some (Json.str "d1") :=
  ⟨rfl,
   execute_pending_and_own_response_amended.2.2.1 useRequestState.1
     ⟨false, true, some (Json.str "d1"), none⟩ _ (Json.str "ok") rfl rfl,
   execute_pending_and_own_response_amended.2.2.2.2.1
     ⟨false, false, none, some (Json.str "oldErr")⟩ _ (Json.str "ok") rfl rfl,
   execute_pending_and_own_response_amended.2.2.2.2.2
     ⟨false, true, some (Json.str "d1"), none⟩ _ (Json.str "e2") rfl rfl⟩

/-- Folding `Headers.append` over the caller-supplied header entries just
lowercases every name. -/
theorem headersAppend_foldl (hs : HeaderList) (acc : HeaderList) :
    hs.foldl (fun a p => headersAppend a p.1 p.2) acc
      = acc ++ hs.map (fun p => (lowerName p.1, p.2)) := by
  induction hs generalizing acc with
  | nil => simp
  | cons x t ih =>
      rw [List.foldl_cons, ih]
      simp [headersAppend]

/-- After `Headers.set`, looking up the name that was set finds exactly the
value that was set. -/
theorem headersSetAux_find_self (h : HeaderList) (n v : String) :
    (headersSetAux h n v).find? (fun p => p.1 == n) = some (n, v) := by
  induction h with
  | nil => simp [headersSetAux]
  | cons x t ih =>
      cases hx : (x.1 == n) with
      | true => simp [headersSetAux, hx, List.find?_cons]
      | false => simp [headersSetAux, hx, List.find?_cons, ih]

/-- Dropping the entries of one name does not change what `find?` sees for a
different name. -/
theorem find_filter_other (t : HeaderList) (n m : String)
    (hmn : (m == n) = false) :
    (t.filter (fun p => p.1 != n)).find? (fun p => p.1 == m)
      = t.find? (fun p => p.1 == m) := by
  induction t with
  | nil => rfl
  | cons x t ih =>
      cases hx : (x.1 == m) with
      | true =>
          have hxn : (x.1 != n) = true := by
            have hx1 : x.1 = m := eq_of_beq hx
            simp [hx1, bne, hmn]
          simp [List.filter_cons, hxn, List.find?_cons, hx]
      | false =>
          cases hxn : (x.1 != n) with
          | true => simp [List.filter_cons, hxn, List.find?_cons, hx, ih]
          | false => simp [List.filter_cons, hxn, List.find?_cons, hx, ih]

/-- Dropping the entries of one name does not change the sublist of entries
of a different name. -/
theorem filter_filter_other (t : HeaderList) (n m : String)
    (hmn : (m == n) = false) :
    (t.filter (fun p => p.1 != n)).filter (fun p => p.1 == m)
      = t.filter (fun p => p.1 == m) := by
  induction t with
  | nil => rfl
  | cons x t ih =>
      cases hx : (x.1 == m) with
      | true =>
          have hxn : (x.1 != n) = true := by
            have hx1 : x.1 = m := eq_of_beq hx
            simp [hx1, bne, hmn]
          simp [List.filter_cons, hxn, hx, ih]
      | false =>
          cases hxn : (x.1 != n) <;> simp [List.filter_cons, hxn, hx, ih]

/-- Setting one header name does not change what `find?` sees for a
different name. -/
theorem headersSetAux_find_other (h : HeaderList) (n v m : String)
    (hmn : (m == n) = false) :
    (headersSetAux h n v).find? (fun p => p.1 == m)
      = h.find? (fun p => p.1 == m) := by
  have hnm : (n == m) = false :=
    beq_eq_false_iff_ne.mpr fun hc => (beq_eq_false_iff_ne.mp hmn) hc.symm
  induction h with
  | nil => simp [headersSetAux, List.find?_cons, hnm]
  | cons x t ih =>
      cases hx : (x.1 == n) with
      | true =>
          have hxm : (x.1 == m) = false := by rw [eq_of_beq hx]; exact hnm
          simp [headersSetAux, hx, List.find?_cons, hnm, hxm,
            find_filter_other t n m hmn]
      | false =>
          cases hxm : (x.1 == m) <;>
            simp [headersSetAux, hx, List.find?_cons, hxm, ih]

/-- Setting one header name does not change the sublist of entries of a
different name. -/
theorem headersSetAux_filter_other (h : HeaderList) (n v m : String)
    (hmn : (m == n) = false) :
    (headersSetAux h n v).filter (fun p => p.1 == m)
      = h.filter (fun p => p.1 == m) := by
  have hnm : (n == m) = false :=
    beq_eq_false_iff_ne.mpr fun hc => (beq_eq_false_iff_ne.mp hmn) hc.symm
  induction h with
  | nil => simp [headersSetAux, List.filter_cons, hnm]
  | cons x t ih =>
      cases hx : (x.1 == n) with
      | true =>
          have hxm : (x.1 == m) = false := by rw [eq_of_beq hx]; exact hnm
          simp [headersSetAux, hx, List.filter_cons, hnm, hxm,
            filter_filter_other t n m hmn]
      | false =>
          cases hxm : (x.1 == m) <;>
            simp [headersSetAux, hx, List.filter_cons, hxm, ih]

/-- Claim C4: for every service descriptor and caller-supplied header
mapping (even one carrying its own `Content-Type` or `Accept` values), the
outgoing request's headers answer exactly `application/json` for
`Content-Type` and `Accept`, and every caller-supplied header of any other
name is preserved (up to the case-insensitive name normalization the
`Headers` class performs). -/
theorem buildHeaders_forces_json_headers (service : Service)
    (requestBody : Option Json) (hs : HeaderList)
    (hh : service.headers = some hs) :
    headersGet (outgoingRequest service requestBody).headers "Content-Type"
      = some "application/json" ∧
    headersGet (outgoingRequest service requestBody).headers "Accept"
      = some "application/json" ∧
    ∀ n : String, lowerName n ≠ "content-type" → lowerName n ≠ "accept" →
      (outgoingRequest service requestBody).headers.filter
          (fun p => p.1 == lowerName n)
        = (hs.map (fun p => (lowerName p.1, p.2))).filter
            (fun p => p.1 == lowerName n) := by
  have hout : (outgoingRequest service requestBody).headers
      = headersSetAux (headersSetAux (hs.map fun p => (lowerName p.1, p.2))
          "content-type" "application/json") "accept" "application/json" := by
    simp only [outgoingRequest, buildHeaders, headersSet, hh, headersAppend_foldl,
      List.nil_append]
    rfl
  refine ⟨?_, ?_, ?_⟩
  · simp only [headersGet, hout,
      show lowerName "Content-Type" = "content-type" from rfl]
    rw [headersSetAux_find_other _ "accept" _ "content-type" (by decide),
      headersSetAux_find_self]
    rfl
  · simp only [headersGet, hout, show lowerName "Accept" = "accept" from rfl]
    rw [headersSetAux_find_self]
    rfl
  · intro n h1 h2
    have hb1 : (lowerName n == "content-type") = false := beq_eq_false_iff_ne.mpr h1
    have hb2 : (lowerName n == "accept") = false := beq_eq_false_iff_ne.mpr h2
    simp only [hout]
    rw [headersSetAux_filter_other _ "accept" _ _ hb2,
      headersSetAux_filter_other _ "content-type" _ _ hb1]

/-- Witness for C4: the README's descriptor with an `Authorization` header,
extended with a caller-supplied `Content-Type: text/plain` that the hook
must overwrite while keeping the `Authorization` entry. -/
theorem buildHeaders_forces_json_headers_witness :
    (Service.mk "https://someapi.com/resource" none none
        (some [("Authorization", "Bearer a.jwt.token"),
               ("Content-Type", "text/plain")]) none none none).headers
      = some [("Authorization", "Bearer a.jwt.token"),
              ("Content-Type", "text/plain")] ∧
    headersGet
        (outgoingRequest
          (Service.mk "https://someapi.com/resource" none none
            (some [("Authorization", "Bearer a.jwt.token"),
                   ("Content-Type", "text/plain")]) none none none)
          none).headers "Content-Type"
      = some "application/json" ∧
    headersGet
        (outgoingRequest
          (Service.mk "https://someapi.com/resource" none none
            (some [("Authorization", "Bearer a.jwt.token"),
                   ("Content-Type", "text/plain")]) none none none)
          none).headers "Accept"
      = some "application/json" ∧
    lowerName "Authorization" ≠ "content-type" ∧
    lowerName "Authorization" ≠ "accept" ∧
    (outgoingRequest
        (Service.mk "https://someapi.com/resource" none none
          (some [("Authorization", "Bearer a.jwt.token"),
                 ("Content-Type", "text/plain")]) none none none)
        none).headers.filter (fun p => p.1 == lowerName "Authorization")
      = (([("Authorization", "Bearer a.jwt.token"),
           ("Content-Type", "text/plain")] : HeaderList).map
            (fun p => (lowerName p.1, p.2))).filter
          (fun p => p.1 == lowerName "Authorization") :=
  ⟨rfl,
   (buildHeaders_forces_json_headers _ none _ rfl).1,
   (buildHeaders_forces_json_headers _ none _ rfl).2.1,
   by decide, by decide,
   (buildHeaders_forces_json_headers _ none _ rfl).2.2 "Authorization"
     (by decide) (by decide)⟩

end UseHttpService
